import Mathlib

/-!
Shallow embedding of toot2mail.py (eht16/toot2mail), focused on the
cross-instance post resolution and delivery-state engine
(class MastodonEmailProcessor) and the post model (class Toot).

Conventions used throughout:
* JSON payloads are modelled as explicit structures; a JSON `null` string
  field is modelled as the empty string "" (falsy in Python), nullable
  object fields as Option.
* Exceptions are modelled with Except PyErr; the distinguished exception
  classes the source catches get their own constructors.
* External collaborators (requests HTTP calls, SMTP, markdownify, PIL,
  datetime, the configured regex replacements) are modelled as fields of
  World / Config: pure oracles supplying their observable results.
-/

/-! ## Python str primitives

Kernel-computable models of the Python string operations the source uses
(str.lower restricted to ASCII, `in`, str.split, len, slicing). They are
defined structurally over the character list so that concrete runs of the
engine evaluate inside proofs. -/

/-- ASCII lowercasing of one character (models str.lower on the ASCII
identifiers, hosts and uris the engine handles). -/
def charToLower (c : Char) : Char :=
  if 'A' ≤ c ∧ c ≤ 'Z' then Char.ofNat (c.toNat + 32) else c

/-- Models `s.lower()`. -/
def strToLower (s : String) : String := ⟨s.data.map charToLower⟩

/-- Models `c in s` for a single character. -/
def strContainsChar (s : String) (c : Char) : Bool := s.data.contains c

/-- Models `len(s)`. -/
def strLength (s : String) : Nat := s.data.length

/-- Models `s[:n]`. -/
def strTake (s : String) (n : Nat) : String := ⟨s.data.take n⟩

/-- Helper for str.split(c): split a character list at every occurrence of
`c` (Python semantics: "".split(c) is [""], separators at the ends produce
empty pieces). -/
def splitOnCharAux (c : Char) : List Char → List (List Char)
  | [] => [[]]
  | x :: rest =>
    let r := splitOnCharAux c rest
    if x = c then [] :: r
    else
      match r with
      | piece :: pieces => (x :: piece) :: pieces
      | [] => [[x]]

/-- Models `s.split(c)` for a one-character separator. -/
def strSplitOnChar (s : String) (c : Char) : List String :=
  (splitOnCharAux c s.data).map (fun l => (⟨l⟩ : String))

/-- Split a character list at the first occurrence of `sep`, returning the
parts before and after it (none when `sep` does not occur). -/
def findSubstrAux (sep : List Char) : List Char → Option (List Char × List Char)
  | [] => none
  | x :: rest =>
    if sep.isPrefixOf (x :: rest) then some ([], (x :: rest).drop sep.length)
    else
      match findSubstrAux sep rest with
      | some (pre, post) => some (x :: pre, post)
      | none => none

/-- Split an absolute URL at its "://", as urlsplit does for the http(s)
URLs the source handles. -/
def urlSchemeSplit (url : String) : Option (String × String) :=
  (findSubstrAux "://".data url.data).map
    (fun p => ((⟨p.1⟩ : String), (⟨p.2⟩ : String)))

/-- Mastodon account object, fields used by the source
(`toot.account.username` etc.). -/
structure Account where
  username : String
  display_name : String
  acct : String
  id : String
deriving DecidableEq, Repr

/-- One entry of a status' `media_attachments` list. -/
structure MediaAtt where
  type : String
  url : String
  preview_url : String
deriving DecidableEq, Repr

/-- Link-preview card of a status; `image` is "" when the JSON value is null. -/
structure CardVal where
  url : String
  title : String
  image : String
deriving DecidableEq, Repr

/-- The `application` metadata of a status; `website` is "" when null. -/
structure AppVal where
  name : String
  website : String
deriving DecidableEq, Repr

/-- The exception classes distinguished by the source's except clauses. -/
inductive PyErr where
  /-- requests.exceptions.HTTPError raised by response.raise_for_status() -/
  | httpError (status : Nat)
  /-- urllib3.exceptions.MaxRetryError (connection failure) -/
  | maxRetry
  /-- requests.exceptions.ProxyError -/
  | proxy
  /-- requests.exceptions.ConnectionError / Timeout raised by requests.get
      before any HTTP status exists (image fetches, not caught there) -/
  | connection
  /-- an exception raised by smtplib inside _send_mail -/
  | smtp
  /-- Python UnboundLocalError: a local variable referenced before assignment -/
  | unboundLocal (name : String)
  /-- ValueError, e.g. from datetime.fromisoformat -/
  | valueError
deriving DecidableEq, Repr

/-- Outcome of one `MastodonEmailProcessor._request` call, classified by the
exception classes the engine's callers distinguish. -/
inductive FetchResult (α : Type) where
  | ok (a : α)
  | maxRetryError
  | proxyError
  | httpError (status : Nat)
deriving DecidableEq, Repr

/-- Outcome of the direct requests.get in `_get_image`: either a body,
an HTTP status error from raise_for_status, or a transport-level
failure (ConnectionError / Timeout) that carries no HTTP status. -/
inductive ImageFetch where
  | ok (data : List Nat)
  | httpError (status : Nat)
  | connectionError
deriving DecidableEq, Repr

/-- A Mastodon status ("toot") as the source's Toot class sees it.
Mirrors the JSON keys the source reads, plus the two attributes the
source attaches after construction: `software_name` / `software_version`
(cached by _can_toot_be_processed) and `in_reply_to` (set by
_get_toot_in_reply_to, None at construction). -/
inductive Toot where
  | mk (id uri url content spoiler_text : String)
       (in_reply_to_id : Option String)
       (reblog : Option Toot)
       (account : Account)
       (media_attachments : List MediaAtt)
       (card : Option CardVal)
       (application : Option AppVal)
       (created_at : String)
       (software_name software_version : Option String)
       (in_reply_to : Option Toot) : Toot

namespace Toot

def id : Toot → String
  | .mk i _ _ _ _ _ _ _ _ _ _ _ _ _ _ => i

def uri : Toot → String
  | .mk _ u _ _ _ _ _ _ _ _ _ _ _ _ _ => u

def url : Toot → String
  | .mk _ _ u _ _ _ _ _ _ _ _ _ _ _ _ => u

def content : Toot → String
  | .mk _ _ _ c _ _ _ _ _ _ _ _ _ _ _ => c

def spoiler_text : Toot → String
  | .mk _ _ _ _ s _ _ _ _ _ _ _ _ _ _ => s

def in_reply_to_id : Toot → Option String
  | .mk _ _ _ _ _ r _ _ _ _ _ _ _ _ _ => r

def reblog : Toot → Option Toot
  | .mk _ _ _ _ _ _ r _ _ _ _ _ _ _ _ => r

def account : Toot → Account
  | .mk _ _ _ _ _ _ _ a _ _ _ _ _ _ _ => a

def media_attachments : Toot → List MediaAtt
  | .mk _ _ _ _ _ _ _ _ m _ _ _ _ _ _ => m

def card : Toot → Option CardVal
  | .mk _ _ _ _ _ _ _ _ _ c _ _ _ _ _ => c

def application : Toot → Option AppVal
  | .mk _ _ _ _ _ _ _ _ _ _ a _ _ _ _ => a

def created_at : Toot → String
  | .mk _ _ _ _ _ _ _ _ _ _ _ c _ _ _ => c

def software_name : Toot → Option String
  | .mk _ _ _ _ _ _ _ _ _ _ _ _ s _ _ => s

def software_version : Toot → Option String
  | .mk _ _ _ _ _ _ _ _ _ _ _ _ _ s _ => s

def in_reply_to : Toot → Option Toot
  | .mk _ _ _ _ _ _ _ _ _ _ _ _ _ _ r => r

/-- Models `toot.in_reply_to = x` (the only attribute the engine mutates on an
existing Toot besides the software cache). -/
def setInReplyTo : Toot → Option Toot → Toot
  | .mk a b c d e f g h i j k l m n _, r => .mk a b c d e f g h i j k l m n r

/-- Models `self.is_boost = bool(self.reblog)`: true iff an embedded original
(reblogged) status is present. -/
def isBoost (t : Toot) : Bool := t.reblog.isSome

/-- Models `self.is_reply = bool(self.in_reply_to_id)`. -/
def isReply (t : Toot) : Bool := t.in_reply_to_id.isSome

/-- The `content` property: spoiler text, when non-empty, is prepended to
the raw content. Note: this property does NOT unwrap a boost - it always
reads the outer status' own content and spoiler_text. -/
def contentProp (t : Toot) : String :=
  if t.spoiler_text ≠ "" then t.spoiler_text ++ "\n\n" ++ t.content
  else t.content

/-- The `card` property: `self.reblog.card if self.is_boost else
self.get('card')` - for a boost this reads the embedded status' own card
property (recursively, matching the Python property chain). -/
def cardProp : Toot → Option CardVal
  | .mk _ _ _ _ _ _ (some r) _ _ _ _ _ _ _ _ => r.cardProp
  | .mk _ _ _ _ _ _ none _ _ c _ _ _ _ _ => c

/-- The `media_attachments` property: for a boost with a non-empty embedded
attachment list, the embedded status' attachments, else the outer ones. -/
def mediaAttachmentsProp : Toot → List MediaAtt
  | .mk _ _ _ _ _ _ (some r) _ m _ _ _ _ _ _ =>
      if r.mediaAttachmentsProp ≠ [] then r.mediaAttachmentsProp else m
  | .mk _ _ _ _ _ _ none _ m _ _ _ _ _ _ => m

end Toot

/-- Models `urlsplit(url).netloc`: the authority component between "://" and the
next "/". Models the stdlib urlsplit for the absolute http(s) URLs the
source handles. -/
def urlNetloc (url : String) : String :=
  match urlSchemeSplit url with
  | some (_, rest) => (strSplitOnChar rest '/').headD ""
  | none => ""

/-- Models `parsed_url.path.split('/')[-1]`: the last path segment of an absolute
URL ("" when the path is empty or ends in "/"). -/
def urlLastPathSegment (url : String) : String :=
  match urlSchemeSplit url with
  | some (_, rest) =>
    match strSplitOnChar rest '/' with
    | [] => ""
    | [_] => ""
    | _ :: path => path.getLastD ""
  | none => ""

/-- Models `Path(s).name`: the final component of a path-like string. -/
def pathName (s : String) : String :=
  (strSplitOnChar s '/').getLastD s

namespace Toot

/-- Models `get_hostname`: host of the toot's public url. -/
def getHostname (t : Toot) : String := urlNetloc t.url

/-- Models `get_uid`: lowercase acct when it contains "@", else
lowercase(username)@lowercase(url host). -/
def getUid (t : Toot) : String :=
  let acct := t.account.acct
  if strContainsChar acct '@' then strToLower acct
  else strToLower t.account.username ++ "@" ++ strToLower t.getHostname

/-- Models `get_username(compound)`: for a boost, the embedded original author's
username (prefixed by the booster's when compound). -/
def getUsername (t : Toot) (compound : Bool) : String :=
  match t.reblog with
  | some r =>
    if compound then t.account.username ++ ": " ++ r.account.username
    else r.account.username
  | none => t.account.username

/-- Python `a or b` on strings. -/
def strOrElse (a b : String) : String := if a = "" then b else a

/-- Models `get_display_name(compound)`: the OUTER account's display name (falling
back to its username); for a compound boost the embedded original's display
name is appended. Note the non-compound boost case returns the outer
display name. -/
def getDisplayName (t : Toot) (compound : Bool) : String :=
  let display_name := strOrElse t.account.display_name t.account.username
  match t.reblog with
  | some r =>
    if compound then
      display_name ++ ": " ++ strOrElse r.account.display_name r.account.username
    else display_name
  | none => display_name

end Toot

/-! ## Delivery state, run state, configuration, world -/

/-- The persisted delivery state (the JSON state file): association list
mapping unique identity → the list stored under its "toots" key. A Python
dict has at most one entry per key; the engine only ever appends. -/
abbrev TootState : Type := List (String × List String)

/-- Models `self._toot_state.get(uid, {}).get('toots', [])`. -/
def tootsOf : TootState → String → List String
  | [], _ => []
  | (k, v) :: rest, uid => if k = uid then v else tootsOf rest uid

/-- Whether the state dict has an entry for `uid`. -/
def stateHasUid : TootState → String → Bool
  | [], _ => false
  | (k, _) :: rest, uid => k = uid || stateHasUid rest uid

/-- Models `_add_toot_to_toot_state`: `setdefault(uid, {'toots': []})` followed by
`user['toots'].append(toot_uri)` with `toot_uri = toot.uri.lower()`.
A plain list append: duplicates are possible. -/
def addTootToTootState (s : TootState) (t : Toot) : TootState :=
  let uid := t.getUid
  let toot_uri := strToLower t.uri
  if stateHasUid s uid then
    s.map (fun p => if p.1 = uid then (p.1, p.2 ++ [toot_uri]) else p)
  else s ++ [(uid, [toot_uri])]

/-- Models `_is_toot_already_processed`: membership of the lowercased uri in the
identity's stored list. -/
def isTootAlreadyProcessed (s : TootState) (t : Toot) : Bool :=
  let uid := t.getUid
  let toot_uri := strToLower t.uri
  (tootsOf s uid).contains toot_uri

/-- Observable run state of one MastodonEmailProcessor invocation:
the in-memory delivery state plus an event log. `fetches` records every
`_request` API call as (hostname, endpoint); `sends` records the uri of
every toot whose `_send_mail` call returned successfully; `attempts`
counts `_send_mail` invocations (used to index the SMTP oracle). -/
structure St where
  tootState : TootState
  fetches : List (String × String)
  sends : List String
  attempts : Nat

/-- Record one `_request` API call in the log. -/
def logFetch (st : St) (hostname endpoint : String) : St :=
  { st with fetches := st.fetches ++ [(hostname, endpoint)] }

/-- Immutable configuration (the [settings] section) together with the
external pure collaborators the render path calls. -/
structure Config where
  mailMaximumSubjectLength : Nat
  imageMaximumSize : Option (Nat × Nat)
  mailFrom : String
  /-- socket.getfqdn(), fixed for the run -/
  fqdn : String
  /-- abstracts markdownify.markdownify(html, strip=['a'], ...).strip() -/
  markdownify : String → String
  /-- abstracts the re.sub loop of _perform_content_replacements over the
      configured content_replacement pairs -/
  contentReplace : String → String
  /-- abstracts datetime.fromisoformat(...).timestamp(); none models a
      ValueError on an unparseable created_at -/
  parseTimestamp : String → Option Nat
  /-- abstracts the PIL thumbnail re-encoding of _downscale_image when a
      maximum size is configured -/
  pilDownscale : List Nat → List Nat

/-- The remote side of the run: deterministic oracles for every outbound
call. `statuses h i` is GET https://h/api/v1/statuses/i; `classify h` is
the final result of `_get_toot_instance_type h` (the two-hop nodeinfo
lookup, (none, none) when either hop failed); `smtpOk n` tells whether the
n-th `_send_mail` SMTP submission of the run succeeds. -/
structure World where
  statuses : String → String → FetchResult Toot
  classify : String → Option String × Option String
  accountLookup : String → String → FetchResult String
  timeline : String → String → FetchResult (List Toot)
  hashtagTimeline : String → String → FetchResult (List Toot)
  images : String → ImageFetch
  smtpOk : Nat → Bool

/-- Map a raised `_request` outcome to the exception that propagates. -/
def fetchExcept : FetchResult α → Except PyErr α
  | .ok a => .ok a
  | .maxRetryError => .error .maxRetry
  | .proxyError => .error .proxy
  | .httpError s => .error (.httpError s)

/-- One `_request` against the statuses API, with its call logged. -/
def requestStatus (w : World) (st : St) (hostname toot_id : String) :
    St × FetchResult Toot :=
  (logFetch st hostname ("api/v1/statuses/" ++ toot_id), w.statuses hostname toot_id)

/-! ## Rendering helpers (_factor_* methods) -/

/-- Models `_html2text`: empty input is returned as is, otherwise the external
markdownify call (abstracted in Config). -/
def html2text (cfg : Config) (html : String) : String :=
  if html = "" then html else cfg.markdownify html

/-- Models `_perform_content_replacements`: empty input returned as is, otherwise
the configured substitutions (abstracted in Config). -/
def performContentReplacements (cfg : Config) (content : String) : String :=
  if content = "" then content else cfg.contentReplace content

/-- Models `_factor_text_content`. -/
def factorTextContent (cfg : Config) (t : Toot) : String :=
  performContentReplacements cfg (html2text cfg t.contentProp)

/-- Models `_factor_mail_subject`: truncate past the configured cap (appending
"..."), then substitute the "..." placeholder when empty. -/
def factorMailSubject (cfg : Config) (text_content : String) : String :=
  let text_content :=
    if strLength text_content > cfg.mailMaximumSubjectLength then
      strTake text_content cfg.mailMaximumSubjectLength ++ "..."
    else text_content
  if text_content = "" then "..." else text_content

/-- Models `_factor_mail_from` (the Header utf-8 encoding of the display name is
abstracted away as the identity). -/
def factorMailFrom (cfg : Config) (t : Toot) : String :=
  t.getDisplayName true ++ " <" ++ cfg.mailFrom ++ ">"

/-- Models `_factor_video_list`: one "\n  - url" line per gifv/video attachment,
"-" when there are none. -/
def factorVideoList (t : Toot) : String :=
  let videos := t.mediaAttachmentsProp.foldl
    (fun acc media =>
      if media.type = "gifv" ∨ media.type = "video" then
        acc ++ "\n  - " ++ media.url
      else acc) ""
  if videos = "" then "-" else videos

/-- CARD_TEMPLATE, with the fields substituted. -/
def cardTemplate (card_url card_title : String) : String :=
  "\n--------------------------------\nCard URL:   " ++ card_url ++
  ":\nCard Title: " ++ card_title

/-- Models `_factor_card`: the card template for a present card, else "". -/
def factorCard (cfg : Config) (t : Toot) : String :=
  match t.cardProp with
  | some card =>
    cardTemplate (performContentReplacements cfg card.url) card.title
  | none => ""

/-- MAIL_MESSAGE_TEMPLATE with all fields substituted. -/
def mailMessageTemplate (toot card videos posted_by boosted_by application
    in_reply_to_url url hostname username toot_id : String) : String :=
  toot ++ "\n\n" ++ card ++
  "\n--------------------------------\n" ++
  "Videos: " ++ videos ++ "\n" ++
  "Posted by: " ++ posted_by ++ "\n" ++
  "Boosted by: " ++ boosted_by ++ "\n" ++
  "Application: " ++ application ++ "\n\n" ++
  "In Reply To: " ++ in_reply_to_url ++ "\n" ++
  "URL: " ++ url ++ "\n" ++
  "Timeline: https://" ++ hostname ++ "/@" ++ username ++ "/with_replies\n" ++
  "Toot ID: " ++ toot_id ++ "\n"

/-- The local variable `boosted_by` of `_factor_mail_message`: it is
assigned only in the `if toot.is_boost:` branch (the else branch is
`pass`), so it is unbound for a non-boost toot. -/
def boostedByLocal (t : Toot) : Option String :=
  if t.isBoost then
    some (t.account.display_name ++ " (@" ++ t.account.username ++ ")")
  else none

/-- The `in_reply_to_url` template field:
`toot.in_reply_to.url if toot.is_reply and toot.in_reply_to else '-'`. -/
def inReplyToUrlField (t : Toot) : String :=
  if t.isReply then
    match t.in_reply_to with
    | some p => p.url
    | none => "-"
  else "-"

/-- The `url` template field: `toot.reblog.url if toot.is_boost else toot.url`. -/
def msgUrlField (t : Toot) : String :=
  match t.reblog with
  | some r => r.url
  | none => t.url

/-- The `application` template field. -/
def applicationField (t : Toot) : String :=
  match t.application with
  | some app =>
    if app.website ≠ "" then app.name ++ " (" ++ app.website ++ ")"
    else app.name
  | none => "-"

/-- Models `_factor_mail_message`. For a non-boost toot the local `boosted_by` is
referenced before assignment, which raises UnboundLocalError in Python. -/
def factorMailMessage (cfg : Config) (t : Toot) (text_content : String) :
    Except PyErr String :=
  let posted_by := t.getDisplayName false ++ " (@" ++ t.getUsername false ++ ")"
  match boostedByLocal t with
  | none => .error (.unboundLocal "boosted_by")
  | some boosted_by =>
    .ok (mailMessageTemplate text_content (factorCard cfg t) (factorVideoList t)
      posted_by boosted_by (applicationField t) (inReplyToUrlField t)
      (msgUrlField t) t.getHostname t.account.username t.id)

/-- Models `_factor_toot_timestamp` (fromisoformat abstracted, incl. the
pre-3.11 trailing-Z stripping); an unparseable date raises ValueError. -/
def factorTootTimestamp (cfg : Config) (t : Toot) : Except PyErr Nat :=
  match cfg.parseTimestamp t.created_at with
  | some ts => .ok ts
  | none => .error .valueError

/-- Models `_factor_mail_headers`: X-Toot-URI, X-Toot-Account and Message-ID
always; In-Reply-To when a resolved parent exists. -/
def factorMailHeaders (cfg : Config) (t : Toot) : List (String × String) :=
  let hostname := t.getHostname
  let headers := [("X-Toot-URI", t.uri), ("X-Toot-Account", t.getUid),
    ("Message-ID",
      "<" ++ t.account.username ++ "." ++ hostname ++ "." ++ t.id ++ "@" ++
        cfg.fqdn ++ ">")]
  if t.isReply then
    match t.in_reply_to with
    | some p =>
      headers ++ [("In-Reply-To",
        "<" ++ p.account.username ++ "." ++ p.getHostname ++ "." ++ p.id ++
          "@" ++ cfg.fqdn ++ ">")]
    | none => headers
  else headers

/-! ## Attachment resolution (_get_image and friends) -/

/-- An email image attachment body: either raw downloaded bytes or the
synthesized download-error placeholder (a PNG rendering of wrapped text
lines on a lightgrey canvas; its pixel encoding is irrelevant here, the
wrapped lines and canvas size are what the source chooses). -/
inductive ImageData where
  | raw (data : List Nat)
  | placeholder (width height : Nat) (lines : List String)
deriving DecidableEq, Repr

/-- Whether the attachment body is empty (`if not file_content: continue`
in _send_mail); a generated placeholder PNG is never empty. -/
def ImageData.isEmptyData : ImageData → Bool
  | .raw data => data.isEmpty
  | .placeholder _ _ _ => false

/-- Models the greedy refill of Python textwrap.wrap: words are packed
into lines of at most `width` characters (the long-word breaking of
textwrap is not modelled; no claim depends on it). -/
def textwrapWrap (text : String) (width : Nat) : List String :=
  let words := (strSplitOnChar text ' ').filter (fun word => word ≠ "")
  let step := fun (acc : List String × String) (word : String) =>
    let (lines, cur) := acc
    if cur = "" then (lines, word)
    else if strLength cur + 1 + strLength word ≤ width then
      (lines, cur ++ " " ++ word)
    else (lines ++ [cur], word)
  let (lines, cur) := words.foldl step ([], "")
  if cur = "" then lines else lines ++ [cur]

/-- Models `_generate_download_error_image`: a placeholder of the configured
maximum size (500x300 by default) containing the error text wrapped at
int(width/10) characters. -/
def generateDownloadErrorImage (cfg : Config) (text : String) : ImageData :=
  let (width, height) :=
    match cfg.imageMaximumSize with
    | some wh => wh
    | none => (500, 300)
  let max_text_width := width / 10
  ImageData.placeholder width height (textwrapWrap text max_text_width)

/-- Models `_downscale_image`: identity without a configured maximum size, else
the PIL thumbnail re-encoding (abstracted in Config). -/
def downscaleImage (cfg : Config) (image_data : List Nat) : List Nat :=
  match cfg.imageMaximumSize with
  | none => image_data
  | some _ => cfg.pilDownscale image_data

/-- The message `_get_image` logs and renders into the placeholder; the
str() of the requests HTTPError is abstracted to its status and url. -/
def downloadErrorMsg (image_url : String) (status : Nat) : String :=
  "Unable to download image \"" ++ image_url ++ "\": " ++ toString status ++
    " Error for url: " ++ image_url

/-- Models `_get_image`: on a 2xx response the (possibly downscaled) body; on an
HTTP status error (the only except clause) a synthesized placeholder named
file_name.png; a transport-level failure (ConnectionError / Timeout) is
not caught and propagates. -/
def getImage (cfg : Config) (w : World) (image_url file_name : String)
    (_hostname : String) : Except PyErr (String × ImageData) :=
  match w.images image_url with
  | .ok data => .ok (file_name, .raw (downscaleImage cfg data))
  | .httpError status =>
    let msg := downloadErrorMsg image_url status
    .ok (file_name ++ ".png", generateDownloadErrorImage cfg msg)
  | .connectionError => .error .connection

/-- One iteration of the media loop of `_factor_toot_attachments`. -/
def attachmentStep (cfg : Config) (w : World) (hostname : String)
    (acc : Except PyErr (List (String × ImageData))) (media : MediaAtt) :
    Except PyErr (List (String × ImageData)) :=
  match acc with
  | .error e => .error e
  | .ok items =>
    if media.type = "gifv" ∨ media.type = "image" ∨ media.type = "video" then
      let media_url := if media.type = "image" then media.url else media.preview_url
      let file_name := pathName media_url
      match getImage cfg w media_url file_name hostname with
      | .ok a => .ok (items ++ [a])
      | .error e => .error e
    else .ok items

/-- Models `_factor_toot_attachments`: the card image (when present) followed by
every gifv/image/video media attachment; an uncaught fetch error aborts
the whole step. -/
def factorTootAttachments (cfg : Config) (w : World) (t : Toot) :
    Except PyErr (List (String × ImageData)) :=
  let hostname := t.getHostname
  let start : Except PyErr (List (String × ImageData)) :=
    match t.cardProp with
    | some card =>
      if card.image ≠ "" then
        let file_name := "card_" ++ pathName card.image
        match getImage cfg w card.image file_name hostname with
        | .ok a => .ok [a]
        | .error e => .error e
      else .ok []
    | none => .ok []
  t.mediaAttachmentsProp.foldl (attachmentStep cfg w hostname) start

/-! ## Resolution and delivery engine -/

/-- INCOMPATIBLE_ACTIVITY_PUB_INSTANCES: the fixed deny-list of server
software families lacking the Mastodon statuses API. -/
def INCOMPATIBLE_ACTIVITY_PUB_INSTANCES : List String :=
  ["akkoma", "firefish", "friendica", "gotosocial",
   "mammuthus (experimental)", "mitra", "pixelfed", "peertube"]

/-- Models `_can_toot_be_processed`: classify the toot's host (using the value
cached on the toot when present); a deny-list match rejects, an unknown
software name (None) is treated as compatible. The caching write-back
`toot['software_name'] = ...` is observationally absorbed by the
deterministic classify oracle. -/
def canTootBeProcessed (w : World) (t : Toot) : Bool :=
  let software_name :=
    match t.software_name with
    | some s => some s
    | none => (w.classify t.getHostname).1
  match software_name with
  | some name => !(INCOMPATIBLE_ACTIVITY_PUB_INSTANCES.contains name)
  | none => true

/-- The value `_get_original_toot` returns: re-fetch the toot from the
host and trailing path segment of its public url; on MaxRetryError or
ProxyError, and on HTTP 403/404, keep the original toot; any other HTTP
status propagates. -/
def getOriginalTootRes (w : World) (t : Toot) : Except PyErr Toot :=
  let originating_hostname := urlNetloc t.url
  let originating_toot_id := urlLastPathSegment t.url
  match w.statuses originating_hostname originating_toot_id with
  | .ok new_toot => .ok new_toot
  | .maxRetryError => .ok t
  | .proxyError => .ok t
  | .httpError status =>
    if status = 403 ∨ status = 404 then .ok t
    else .error (.httpError status)

/-- Models `_get_original_toot` with its `_request` call logged. -/
def getOriginalToot (w : World) (st : St) (t : Toot) : St × Except PyErr Toot :=
  (logFetch st (urlNetloc t.url) ("api/v1/statuses/" ++ urlLastPathSegment t.url),
   getOriginalTootRes w t)

/-- The send-and-commit tail of `_process_toot`: `self._send_mail(...)`
followed by `self._add_toot_to_toot_state(toot)`. The uri is recorded
if and only if the SMTP submission returned; a raising submission leaves
the delivery state untouched. -/
def sendAndCommit (w : World) (st : St) (t : Toot) : St × Except PyErr Unit :=
  let n := st.attempts
  let st := { st with attempts := n + 1 }
  if w.smtpOk n then
    let st := { st with sends := st.sends ++ [t.uri] }
    ({ st with tootState := addTootToTootState st.tootState t }, .ok ())
  else (st, .error .smtp)

/-- Models `_get_toot_in_reply_to`, parameterized by the recursive
`_process_toot` call (`proc`), which the fueled definitions tie. Returns
the toot with its `in_reply_to` attribute set where Python mutates it. -/
def getTootInReplyToF (w : World) (proc : St → Toot → St) (st : St) (t : Toot) :
    St × Except PyErr Toot :=
  match t.in_reply_to_id with
  | none => (st, .ok t)
  | some in_reply_to_id =>
    if !canTootBeProcessed w t then (st, .ok t)
    else
      let (st, res) := requestStatus w st t.getHostname in_reply_to_id
      match res with
      | .maxRetryError => (st, .error .maxRetry)
      | .proxyError => (st, .error .proxy)
      | .httpError status =>
        -- only a 404 is tolerated here; all other HTTP errors re-raise
        if status = 404 then (st, .ok t) else (st, .error (.httpError status))
      | .ok in_reply_to =>
        -- `if in_reply_to:` - a fetched status object is a non-empty dict
        let compatible := canTootBeProcessed w (t.setInReplyTo (some in_reply_to))
        let (st, resolved) :=
          if compatible then getOriginalToot w st in_reply_to
          else (st, Except.ok in_reply_to)
        match resolved with
        | .error e => (st, .error e)
        | .ok parent =>
          let st :=
            if isTootAlreadyProcessed st.tootState parent then st
            else proc st parent
          (st, .ok (t.setInReplyTo (some parent)))

/-- The try-block of `_process_toot`, parameterized by the reply-chain
step: origin re-resolution, ancestor resolution/delivery, rendering,
attachment resolution, send, commit. The first stage that raises aborts
the block with the state reached so far (ancestor deliveries persist). -/
def processTootCoreF (cfg : Config) (w : World)
    (replyStep : St → Toot → St × Except PyErr Toot) (st : St) (t : Toot) :
    St × Except PyErr Unit :=
  let (st, res) := getOriginalToot w st t
  match res with
  | .error e => (st, .error e)
  | .ok t =>
    let (st, res) := replyStep st t
    match res with
    | .error e => (st, .error e)
    | .ok t =>
      let text_content := factorTextContent cfg t
      let _mail_from := factorMailFrom cfg t
      let _subject := factorMailSubject cfg text_content
      match factorMailMessage cfg t text_content with
      | .error e => (st, .error e)
      | .ok _message =>
        match factorTootTimestamp cfg t with
        | .error e => (st, .error e)
        | .ok _toot_timestamp =>
          match factorTootAttachments cfg w t with
          | .error e => (st, .error e)
          | .ok _attachments =>
            let _headers := factorMailHeaders cfg t
            sendAndCommit w st t

/-- Models `_process_toot`: the try-block with every exception caught and logged
(the run state reached so far is kept). The fuel bounds the reply-chain
recursion depth, which the source leaves unbounded; every theorem
instantiates sufficient fuel for the chain at hand. -/
def processToot (cfg : Config) (w : World) : Nat → St → Toot → St
  | 0, st, _ => st
  | fuel + 1, st, t =>
    (processTootCoreF cfg w (getTootInReplyToF w (processToot cfg w fuel)) st t).1

/-- Models `_get_toot_in_reply_to` at recursion budget `fuel`. -/
def getTootInReplyTo (cfg : Config) (w : World) (fuel : Nat) :
    St → Toot → St × Except PyErr Toot :=
  getTootInReplyToF w (processToot cfg w fuel)

/-- The try-block of `_process_toot` at recursion budget `fuel`, with the
outcome the except-clause observes. -/
def processTootCore (cfg : Config) (w : World) (fuel : Nat) :
    St → Toot → St × Except PyErr Unit :=
  processTootCoreF cfg w (getTootInReplyTo cfg w fuel)

/-- Models `_process_single_toot`: fetch the referenced status and process it.
Note: this entry point performs NO `_is_toot_already_processed` check. -/
def processSingleToot (cfg : Config) (w : World) (fuel : Nat) (st : St)
    (toot_reference : String) : St × Except PyErr Unit :=
  match strSplitOnChar toot_reference '@' with
  | [toot_id, hostname] =>
    let (st, res) := requestStatus w st hostname toot_id
    match fetchExcept res with
    | .ok toot => (processToot cfg w fuel st toot, .ok ())
    | .error e => (st, .error e)
  | _ => (st, .error .valueError)

/-- Models `_get_account_id` (the lookup call logged). -/
def getAccountId (w : World) (st : St) (username hostname : String) :
    St × Except PyErr String :=
  (logFetch st hostname ("api/v1/accounts/lookup?acct=" ++ username),
   fetchExcept (w.accountLookup hostname username))

/-- Models `_get_toots`: account lookup followed by the account statuses
timeline. -/
def getToots (w : World) (st : St) (username hostname : String) :
    St × Except PyErr (List Toot) :=
  match getAccountId w st username hostname with
  | (st, .error e) => (st, .error e)
  | (st, .ok account_id) =>
    (logFetch st hostname ("api/v1/accounts/" ++ account_id ++ "/statuses"),
     fetchExcept (w.timeline hostname account_id))

/-- The body of the per-toot loop of `_process_user`: skip
already-processed toots and excluded replies/boosts, else process. -/
def processUserStep (cfg : Config) (w : World) (fuel : Nat)
    (exclude_replies exclude_boosts : Bool) (st : St) (toot : Toot) : St :=
  if isTootAlreadyProcessed st.tootState toot then st
  else if exclude_replies && toot.isReply then st
  else if exclude_boosts && toot.isBoost then st
  else processToot cfg w fuel st toot

/-- The try-block of `_process_user`: fetch the timeline (its errors are
the only ones that can reach this level, since `_process_toot` catches its
own), then run the per-toot loop over every fetched toot. -/
def processUserCore (cfg : Config) (w : World) (fuel : Nat) (st : St)
    (username hostname : String) (exclude_replies exclude_boosts : Bool) :
    St × Except PyErr Unit :=
  match getToots w st username hostname with
  | (st, .error e) => (st, .error e)
  | (st, .ok toots) =>
    (toots.foldl (processUserStep cfg w fuel exclude_replies exclude_boosts) st,
     .ok ())

/-- Models `_process_user`: the try-block with any exception caught and logged. -/
def processUser (cfg : Config) (w : World) (fuel : Nat) (st : St)
    (username hostname : String) (exclude_replies exclude_boosts : Bool) : St :=
  (processUserCore cfg w fuel st username hostname exclude_replies exclude_boosts).1

/-- Models `_get_toots_for_hashtag`. -/
def getTootsForHashtag (w : World) (st : St) (hashtag hostname : String) :
    St × Except PyErr (List Toot) :=
  (logFetch st hostname ("api/v1/timelines/tag/" ++ hashtag),
   fetchExcept (w.hashtagTimeline hostname hashtag))

/-- The body of the per-toot loop of `_process_hashtag` (no exclude
flags on this path). -/
def processHashtagStep (cfg : Config) (w : World) (fuel : Nat) (st : St)
    (toot : Toot) : St :=
  if isTootAlreadyProcessed st.tootState toot then st
  else processToot cfg w fuel st toot

/-- The try-block of `_process_hashtag`. -/
def processHashtagCore (cfg : Config) (w : World) (fuel : Nat) (st : St)
    (hashtag hostname : String) : St × Except PyErr Unit :=
  match getTootsForHashtag w st hashtag hostname with
  | (st, .error e) => (st, .error e)
  | (st, .ok toots) => (toots.foldl (processHashtagStep cfg w fuel) st, .ok ())

/-- Models `_process_hashtag`: the try-block with any exception caught. -/
def processHashtag (cfg : Config) (w : World) (fuel : Nat) (st : St)
    (hashtag hostname : String) : St :=
  (processHashtagCore cfg w fuel st hashtag hostname).1

/-- One configured account of the [accounts] section. -/
structure UserSpec where
  username : String
  hostname : String
  exclude_replies : Bool
  exclude_boosts : Bool

/-- The account-mode body of `process`: every configured account is
processed in order (the randomized pause is behavior-free here), and the
finally-block persists the in-memory state whole - the second component is
what `_write_toot_state` writes at the end of the run. -/
def processUsersRun (cfg : Config) (w : World) (fuel : Nat)
    (users : List UserSpec) (st : St) : St × TootState :=
  let st := users.foldl
    (fun st u => processUser cfg w fuel st u.username u.hostname
      u.exclude_replies u.exclude_boosts) st
  (st, st.tootState)

/-- Python dict lookup on a header association list. -/
def headerValue : List (String × String) → String → Option String
  | [], _ => none
  | (k, v) :: rest, key => if k = key then some v else headerValue rest key

/-- Value test for `Except` success test (used to state that a stage does not raise). -/
def exceptOk : Except PyErr α → Bool
  | .ok _ => true
  | .error _ => false

/-! ## Concrete fixtures

Closed configurations, worlds and toots used to instantiate the theorems
(witnesses and counterexamples). The external collaborators of Config are
instantiated with identities; the worlds are minimal deterministic
federations. -/

def cfg0 : Config :=
  { mailMaximumSubjectLength := 100
    imageMaximumSize := none
    mailFrom := "toot@mx"
    fqdn := "mx.local"
    markdownify := fun s => s
    contentReplace := fun s => s
    parseTimestamp := fun _ => some 0
    pilDownscale := fun d => d }

def emptySt : St := { tootState := [], fetches := [], sends := [], attempts := 0 }

/-- An account on host h with username u. -/
def accFix (u : String) : Account :=
  { username := u, display_name := "D" ++ u, acct := u ++ "@h", id := "9" ++ u }

/-- A toot with only the identification fields populated. -/
def mkTootFix (i uri url : String) (parent : Option String) (reb : Option Toot)
    (acc : Account) : Toot :=
  .mk i uri url "" "" parent reb acc [] none none "2024-01-01T00:00:00Z" none none none

/-- The embedded original used by the boost fixtures. -/
def innerFix : Toot :=
  mkTootFix "io" "uio" "https://orig/@o/io" none none (accFix "o")

/-- A→B→C reply chain of boosts (boosts render despite the boosted_by
slip, so their delivery completes). -/
def tFixA : Toot :=
  mkTootFix "a1" "ua" "https://h/@anna/a1" none (some innerFix) (accFix "anna")

def tFixB : Toot :=
  mkTootFix "b1" "ub" "https://h/@bob/b1" (some "a1") (some innerFix) (accFix "bob")

def tFixC : Toot :=
  mkTootFix "c1" "uc" "https://h/@cara/c1" (some "b1") (some innerFix) (accFix "cara")

/-- The same A→B→C chain as ordinary (non-boost) toots. -/
def pFixA : Toot := mkTootFix "a1" "ua" "https://h/@anna/a1" none none (accFix "anna")

def pFixB : Toot := mkTootFix "b1" "ub" "https://h/@bob/b1" (some "a1") none (accFix "bob")

def pFixC : Toot := mkTootFix "c1" "uc" "https://h/@cara/c1" (some "b1") none (accFix "cara")

/-- A world whose fetches all fail with HTTP 500, to be overridden. -/
def wBase : World :=
  { statuses := fun _ _ => .httpError 500
    classify := fun _ => (none, none)
    accountLookup := fun _ _ => .httpError 500
    timeline := fun _ _ => .httpError 500
    hashtagTimeline := fun _ _ => .httpError 500
    images := fun _ => .httpError 500
    smtpOk := fun _ => true }

/-- Host h serving the boost chain. -/
def wChainFix : World :=
  { wBase with statuses := fun h i =>
      if h = "h" ∧ i = "a1" then .ok tFixA
      else if h = "h" ∧ i = "b1" then .ok tFixB
      else if h = "h" ∧ i = "c1" then .ok tFixC
      else .httpError 500 }

/-- Host h serving the plain chain. -/
def wPlainFix : World :=
  { wBase with statuses := fun h i =>
      if h = "h" ∧ i = "a1" then .ok pFixA
      else if h = "h" ∧ i = "b1" then .ok pFixB
      else if h = "h" ∧ i = "c1" then .ok pFixC
      else .httpError 500 }

/-- Host h serving only toot a1. -/
def wSingleFix : World :=
  { wBase with statuses := fun h i =>
      if h = "h" ∧ i = "a1" then .ok tFixA else .httpError 500 }

/-- Every SMTP submission fails. -/
def wNoSmtpFix : World := { wChainFix with smtpOk := fun _ => false }

/-- Origin hosts answering with transport-level failures or server errors. -/
def wProxyFix : World := { wBase with statuses := fun _ _ => .proxyError }

def wMaxRetryFix : World := { wBase with statuses := fun _ _ => .maxRetryError }

def w403Fix : World := { wBase with statuses := fun _ _ => .httpError 403 }

def w500Fix : World := { wBase with statuses := fun _ _ => .httpError 500 }

/-- State in which B (uri ub, identity bob@h) is already delivered. -/
def stPreB : St :=
  { tootState := [("bob@h", ["ub"])], fetches := [], sends := [], attempts := 0 }

/-- Boost fixture for the attribution/content claims: the outer (booster)
account is "out" with display name "Oda" and own content "outer words";
the embedded original author is "inn" with display name "Inn D" and
content "inner words". -/
def iFix : Toot :=
  .mk "i1" "ui" "https://h/@inn/i1" "inner words" "" none none
    { username := "inn", display_name := "Inn D", acct := "inn@h", id := "7" }
    [] none none "2024-01-01T00:00:00Z" none none none

def bFix : Toot :=
  .mk "b9" "ubx" "https://h/@out/b9" "outer words" "" none (some iFix)
    { username := "out", display_name := "Oda", acct := "out@h", id := "8" }
    [] none none "2024-01-01T00:00:00Z" none none none

/-- Boost carrying one image attachment (so it renders and reaches the
attachment stage). -/
def tMediaFix : Toot :=
  .mk "m1" "um" "https://h/@mia/m1" "" "" none (some innerFix) (accFix "mia")
    [{ type := "image", url := "https://img/a.png", preview_url := "https://img/p.png" }]
    none none "2024-01-01T00:00:00Z" none none none

/-- Its host, with the image fetch failing at transport level. -/
def wImgConnFix : World :=
  { wBase with
    statuses := fun h i => if h = "h" ∧ i = "m1" then .ok tMediaFix else .httpError 500
    images := fun _ => .connectionError }

/-- Its host, with the image fetch answering HTTP 404. -/
def wImgHttpFix : World := { wImgConnFix with images := fun _ => .httpError 404 }

/-- A plain toot with a reply parent whose host runs deny-listed software. -/
def tDenyFix : Toot :=
  mkTootFix "d1" "ud" "https://ph/@dee/d1" (some "d0") none (accFix "dee")

/-- The same situation for a boost (which renders). -/
def tDenyBoostFix : Toot :=
  mkTootFix "d1" "udb" "https://ph/@dee/d1" (some "d0") (some innerFix) (accFix "dee")

def wDenyFix : World :=
  { wBase with
    statuses := fun _ _ => .ok tDenyFix
    classify := fun h => if h = "ph" then (some "pixelfed", some "1.0") else (none, none) }

def wDenyBoostFix : World :=
  { wDenyFix with statuses := fun _ _ => .ok tDenyBoostFix }

/-- A boost with a reply parent on a host whose classification is unknown;
the parent fetch answers 404. -/
def tOpenFix : Toot :=
  mkTootFix "o1" "uo" "https://mh/@omar/o1" (some "o0") (some innerFix) (accFix "omar")

def wOpenFix : World :=
  { wBase with statuses := fun h i =>
      if h = "mh" ∧ i = "o1" then .ok tOpenFix
      else if h = "mh" ∧ i = "o0" then .httpError 404
      else .httpError 500 }

/-- A batch of two toots: f1 whose origin re-fetch fails with HTTP 500,
and the boost g1 which delivers fine. -/
def tFailFix : Toot := mkTootFix "f1" "uf" "https://h/@f/f1" none none (accFix "f")

def tGoodFix : Toot :=
  mkTootFix "g1" "ug" "https://h/@good/g1" none (some innerFix) (accFix "good")

def wMixFix : World :=
  { wBase with
    statuses := fun h i =>
      if h = "h" ∧ i = "g1" then .ok tGoodFix else .httpError 500
    accountLookup := fun h u => if h = "h" ∧ u = "u" then .ok "77" else .httpError 500
    timeline := fun h a => if h = "h" ∧ a = "77" then .ok [tFailFix, tGoodFix]
      else .httpError 500 }

/-! ## Helper lemmas about the delivery state -/

theorem tootsOf_of_not_hasUid (s : TootState) (uid : String)
    (h : stateHasUid s uid = false) : tootsOf s uid = [] := by
  induction s with
  | nil => rfl
  | cons p rest ih =>
    obtain ⟨k, v⟩ := p
    simp only [stateHasUid, Bool.or_eq_false_iff, decide_eq_false_iff_not] at h
    simp only [tootsOf, if_neg h.1]
    exact ih h.2

theorem tootsOf_append_new (s : TootState) (uid : String) (v : List String)
    (h : stateHasUid s uid = false) : tootsOf (s ++ [(uid, v)]) uid = v := by
  induction s with
  | nil => simp [tootsOf]
  | cons p rest ih =>
    obtain ⟨k, w⟩ := p
    simp only [stateHasUid, Bool.or_eq_false_iff, decide_eq_false_iff_not] at h
    simp only [List.cons_append, tootsOf, if_neg h.1]
    exact ih h.2

theorem tootsOf_map_update (s : TootState) (uid : String) (u : String)
    (h : stateHasUid s uid = true) :
    tootsOf (s.map (fun p => if p.1 = uid then (p.1, p.2 ++ [u]) else p)) uid =
      tootsOf s uid ++ [u] := by
  induction s with
  | nil => simp [stateHasUid] at h
  | cons p rest ih =>
    obtain ⟨k, v⟩ := p
    rw [List.map_cons]
    by_cases hk : k = uid
    · subst hk
      have hf : (if ((k, v) : String × List String).1 = k
          then (((k, v) : String × List String).1, ((k, v) : String × List String).2 ++ [u])
          else ((k, v) : String × List String)) = (k, v ++ [u]) :=
        if_pos rfl
      rw [hf]
      show (if k = k then v ++ [u]
        else tootsOf (rest.map (fun p => if p.1 = k then (p.1, p.2 ++ [u]) else p)) k) =
        (if k = k then v else tootsOf rest k) ++ [u]
      rw [if_pos rfl, if_pos rfl]
    · have hf : (if ((k, v) : String × List String).1 = uid
          then (((k, v) : String × List String).1, ((k, v) : String × List String).2 ++ [u])
          else ((k, v) : String × List String)) = (k, v) :=
        if_neg hk
      rw [hf]
      show (if k = uid then v
        else tootsOf (rest.map (fun p => if p.1 = uid then (p.1, p.2 ++ [u]) else p)) uid) =
        (if k = uid then v else tootsOf rest uid) ++ [u]
      rw [if_neg hk, if_neg hk]
      simp only [stateHasUid, Bool.or_eq_true, decide_eq_true_eq] at h
      rcases h with h | h
      · exact absurd h hk
      · exact ih h

/-- Appending a toot to the state appends exactly its lowercased uri to
its identity's list. -/
theorem tootsOf_addTootToTootState (s : TootState) (t : Toot) :
    tootsOf (addTootToTootState s t) t.getUid =
      tootsOf s t.getUid ++ [strToLower t.uri] := by
  show tootsOf (if stateHasUid s t.getUid
      then s.map (fun p => if p.1 = t.getUid then (p.1, p.2 ++ [strToLower t.uri]) else p)
      else s ++ [(t.getUid, [strToLower t.uri])]) t.getUid = _
  by_cases h : stateHasUid s t.getUid
  · rw [if_pos h]
    exact tootsOf_map_update s t.getUid (strToLower t.uri) h
  · simp only [Bool.not_eq_true] at h
    rw [if_neg (by simp [h]), tootsOf_append_new s t.getUid _ h,
      tootsOf_of_not_hasUid s t.getUid h]
    simp

/-! ## Projection lemmas for the in_reply_to update -/

theorem Toot.setInReplyTo_in_reply_to (t : Toot) (x : Option Toot) :
    (t.setInReplyTo x).in_reply_to = x := by cases t; rfl

theorem Toot.setInReplyTo_in_reply_to_id (t : Toot) (x : Option Toot) :
    (t.setInReplyTo x).in_reply_to_id = t.in_reply_to_id := by cases t; rfl

theorem Toot.setInReplyTo_uri (t : Toot) (x : Option Toot) :
    (t.setInReplyTo x).uri = t.uri := by cases t; rfl

theorem Toot.setInReplyTo_url (t : Toot) (x : Option Toot) :
    (t.setInReplyTo x).url = t.url := by cases t; rfl

theorem Toot.setInReplyTo_account (t : Toot) (x : Option Toot) :
    (t.setInReplyTo x).account = t.account := by cases t; rfl

theorem Toot.setInReplyTo_getHostname (t : Toot) (x : Option Toot) :
    (t.setInReplyTo x).getHostname = t.getHostname := by cases t; rfl

/-- The compatibility check reads only the toot's host and cached software
name, which setting `in_reply_to` does not touch. -/
theorem canTootBeProcessed_setInReplyTo (w : World) (t : Toot) (x : Option Toot) :
    canTootBeProcessed w (t.setInReplyTo x) = canTootBeProcessed w t := by
  cases t; rfl

/-! ## Invariance lemmas: which stages can touch the delivery state -/

theorem logFetch_tootState (st : St) (h e : String) :
    (logFetch st h e).tootState = st.tootState := rfl

theorem logFetch_sends (st : St) (h e : String) :
    (logFetch st h e).sends = st.sends := rfl

theorem getOriginalToot_fst (w : World) (st : St) (t : Toot) :
    (getOriginalToot w st t).1 =
      logFetch st (urlNetloc t.url) ("api/v1/statuses/" ++ urlLastPathSegment t.url) := rfl

theorem getOriginalToot_snd (w : World) (st : St) (t : Toot) :
    (getOriginalToot w st t).2 = getOriginalTootRes w t := rfl

/-- A failing SMTP submission leaves the whole run state unchanged except
for the attempt counter. -/
theorem sendAndCommit_smtp_fails (w : World) (st : St) (t : Toot)
    (h : w.smtpOk st.attempts = false) :
    (sendAndCommit w st t).1 = { st with attempts := st.attempts + 1 } ∧
    (sendAndCommit w st t).2 = .error .smtp := by
  unfold sendAndCommit
  simp [h]

/-- A successful SMTP submission records the send and commits the uri. -/
theorem sendAndCommit_smtp_ok (w : World) (st : St) (t : Toot)
    (h : w.smtpOk st.attempts = true) :
    (sendAndCommit w st t).1.tootState = addTootToTootState st.tootState t ∧
    (sendAndCommit w st t).1.sends = st.sends ++ [t.uri] ∧
    (sendAndCommit w st t).2 = .ok () := by
  unfold sendAndCommit
  simp [h]

/-- Lemma: `_get_toot_in_reply_to` can change the delivery state and the send log
only through the recursive `_process_toot` call it delegates to. -/
theorem getTootInReplyToF_state_inv (w : World) (proc : St → Toot → St)
    (hproc : ∀ st' t', (proc st' t').tootState = st'.tootState ∧
      (proc st' t').sends = st'.sends) (st : St) (t : Toot) :
    (getTootInReplyToF w proc st t).1.tootState = st.tootState ∧
    (getTootInReplyToF w proc st t).1.sends = st.sends := by
  unfold getTootInReplyToF requestStatus getOriginalToot
  dsimp only
  refine ⟨?_, ?_⟩ <;>
    · repeat' split
      all_goals simp_all [logFetch, hproc]

/-- With every SMTP submission failing, the try-block of `_process_toot`
leaves the delivery state and send log unchanged, provided its reply step
does. -/
theorem processTootCoreF_noSmtp (cfg : Config) (w : World)
    (replyStep : St → Toot → St × Except PyErr Toot)
    (hreply : ∀ st' t', (replyStep st' t').1.tootState = st'.tootState ∧
      (replyStep st' t').1.sends = st'.sends)
    (hw : ∀ i, w.smtpOk i = false) (st : St) (t : Toot) :
    (processTootCoreF cfg w replyStep st t).1.tootState = st.tootState ∧
    (processTootCoreF cfg w replyStep st t).1.sends = st.sends := by
  unfold processTootCoreF getOriginalToot sendAndCommit
  dsimp only
  refine ⟨?_, ?_⟩ <;>
    · repeat' split
      all_goals simp_all [logFetch, hreply, hw]

/-- With every SMTP submission failing, `_process_toot` leaves the
delivery state and the send log unchanged, at any recursion depth. -/
theorem processToot_noSmtp (cfg : Config) (w : World)
    (hw : ∀ i, w.smtpOk i = false) :
    ∀ (fuel : Nat) (st : St) (t : Toot),
      (processToot cfg w fuel st t).tootState = st.tootState ∧
      (processToot cfg w fuel st t).sends = st.sends := by
  intro fuel
  induction fuel with
  | zero => intro st t; exact ⟨rfl, rfl⟩
  | succ fuel ih =>
    intro st t
    exact processTootCoreF_noSmtp cfg w _
      (getTootInReplyToF_state_inv w (processToot cfg w fuel) ih) hw st t

/-- The resolved parent of `_get_toot_in_reply_to` when it is already
delivered: no recursive delivery happens (the state and send log are
untouched for ANY recursive processor), yet the resolved parent is kept
on the toot. Shared backbone of the dedup-guard and duplicate-parent
claims. -/
theorem getTootInReplyToF_parent_done (w : World) (proc : St → Toot → St)
    (st : St) (t parent p1 : Toot) (pid : String)
    (hid : t.in_reply_to_id = some pid)
    (hcan : canTootBeProcessed w t = true)
    (hfetch : w.statuses t.getHostname pid = .ok parent)
    (hres : getOriginalTootRes w parent = .ok p1)
    (hdone : isTootAlreadyProcessed st.tootState p1 = true) :
    (getTootInReplyToF w proc st t).2 = .ok (t.setInReplyTo (some p1)) ∧
    (getTootInReplyToF w proc st t).1.tootState = st.tootState ∧
    (getTootInReplyToF w proc st t).1.sends = st.sends := by
  unfold getTootInReplyToF requestStatus getOriginalToot
  dsimp only
  simp only [hid]
  simp only [hcan, Bool.not_true, Bool.false_eq_true, if_false, hfetch]
  simp only [canTootBeProcessed_setInReplyTo, hcan, if_true, hres]
  simp only [logFetch, hdone, if_true]
  refine ⟨?_, ?_, ?_⟩ <;> first | rfl | trivial

/-! ## Claim theorems -/

/-- C1: a post's canonical uri is added to its identity's delivered set
if and only if the mail send for that post completed successfully. If the
SMTP submission raises, the commit after it never runs and the delivery
state is unchanged (in particular, with a transport that always raises,
a whole `_process_toot` run leaves the delivery state untouched); if it
returns, the lowercased uri is appended to the identity's set. -/
theorem t2m_C1_commit_iff_send (cfg : Config) (w : World) (fuel : Nat)
    (st : St) (t : Toot) :
    (w.smtpOk st.attempts = false →
      (sendAndCommit w st t).2 = .error .smtp ∧
      (sendAndCommit w st t).1.tootState = st.tootState) ∧
    (w.smtpOk st.attempts = true →
      (sendAndCommit w st t).2 = .ok () ∧
      tootsOf (sendAndCommit w st t).1.tootState t.getUid =
        tootsOf st.tootState t.getUid ++ [strToLower t.uri]) ∧
    ((∀ i, w.smtpOk i = false) →
      (processToot cfg w fuel st t).tootState = st.tootState ∧
      (processToot cfg w fuel st t).sends = st.sends) := by
  refine ⟨fun h => ⟨(sendAndCommit_smtp_fails w st t h).2, ?_⟩,
    fun h => ⟨(sendAndCommit_smtp_ok w st t h).2.2, ?_⟩,
    fun hw => processToot_noSmtp cfg w hw fuel st t⟩
  · rw [(sendAndCommit_smtp_fails w st t h).1]
  · rw [(sendAndCommit_smtp_ok w st t h).1, tootsOf_addTootToTootState]

/-- Witness for C1: at the boost fixture, a failing transport leaves the
state of a full delivery run unchanged, while a successful submission
appends the lowercased uri. -/
theorem t2m_C1_commit_iff_send_witness :
    ((processToot cfg0 wNoSmtpFix 3 emptySt tFixC).tootState = emptySt.tootState) ∧
    ((sendAndCommit wNoSmtpFix emptySt tFixC).1.tootState = emptySt.tootState) ∧
    ((sendAndCommit wChainFix emptySt tFixC).2 = .ok () ∧
      tootsOf (sendAndCommit wChainFix emptySt tFixC).1.tootState tFixC.getUid =
        tootsOf emptySt.tootState tFixC.getUid ++ [strToLower tFixC.uri]) :=
  ⟨((t2m_C1_commit_iff_send cfg0 wNoSmtpFix 3 emptySt tFixC).2.2
      (fun _ => rfl)).1,
    ((t2m_C1_commit_iff_send cfg0 wNoSmtpFix 0 emptySt tFixC).1 rfl).2,
    (t2m_C1_commit_iff_send cfg0 wChainFix 0 emptySt tFixC).2.1 rfl⟩

/-- C2 counterexample: delivering the same uri twice through the
single-toot entry point `_process_single_toot` (which performs no
duplicate check) results in TWO sends and the delivered list containing
the uri TWICE - refuting "exactly one send and the delivered-set
containing that uri exactly once" for that entry point. -/
theorem t2m_C2_single_toot_double_send :
    ((processSingleToot cfg0 wSingleFix 2
        ((processSingleToot cfg0 wSingleFix 2 emptySt "a1@h").1) "a1@h").1.sends =
      ["ua", "ua"]) ∧
    (tootsOf ((processSingleToot cfg0 wSingleFix 2
        ((processSingleToot cfg0 wSingleFix 2 emptySt "a1@h").1) "a1@h").1.tootState)
      "anna@h" = ["ua", "ua"]) ∧
    ((processSingleToot cfg0 wSingleFix 2 emptySt "a1@h").1.attempts = 1) :=
  ⟨rfl, rfl, rfl⟩

/-- C2 as amended: the duplicate check guards the timeline entry point,
the hashtag entry point and the reply-chain recursion - a toot whose
lowercased uri is already recorded for its identity is skipped there with
no send and no state change (for the recursion, regardless of the
recursive processor) - but `_process_single_toot` has no such check. -/
theorem t2m_C2_guarded_idempotence :
    (∀ (cfg : Config) (w : World) (fuel : Nat) (er eb : Bool) (st : St) (t : Toot),
      isTootAlreadyProcessed st.tootState t = true →
      processUserStep cfg w fuel er eb st t = st) ∧
    (∀ (cfg : Config) (w : World) (fuel : Nat) (st : St) (t : Toot),
      isTootAlreadyProcessed st.tootState t = true →
      processHashtagStep cfg w fuel st t = st) ∧
    (∀ (w : World) (proc : St → Toot → St) (st : St) (t parent p1 : Toot)
        (pid : String),
      t.in_reply_to_id = some pid →
      canTootBeProcessed w t = true →
      w.statuses t.getHostname pid = .ok parent →
      getOriginalTootRes w parent = .ok p1 →
      isTootAlreadyProcessed st.tootState p1 = true →
      (getTootInReplyToF w proc st t).1.tootState = st.tootState ∧
      (getTootInReplyToF w proc st t).1.sends = st.sends) := by
  refine ⟨fun cfg w fuel er eb st t h => ?_, fun cfg w fuel st t h => ?_,
    fun w proc st t parent p1 pid hid hcan hfetch hres hdone => ?_⟩
  · unfold processUserStep
    rw [if_pos h]
  · unfold processHashtagStep
    rw [if_pos h]
  · exact ⟨(getTootInReplyToF_parent_done w proc st t parent p1 pid
      hid hcan hfetch hres hdone).2.1,
      (getTootInReplyToF_parent_done w proc st t parent p1 pid
        hid hcan hfetch hres hdone).2.2⟩

/-- Witness for C2's amended statement: with ua already recorded for
anna@h, the timeline step, the hashtag step and the reply recursion all
skip the toot. -/
theorem t2m_C2_guarded_idempotence_witness :
    (processUserStep cfg0 wSingleFix 1 false false
      { emptySt with tootState := [("anna@h", ["ua"])] } tFixA =
      { emptySt with tootState := [("anna@h", ["ua"])] }) ∧
    (processHashtagStep cfg0 wSingleFix 1
      { emptySt with tootState := [("anna@h", ["ua"])] } tFixA =
      { emptySt with tootState := [("anna@h", ["ua"])] }) ∧
    ((getTootInReplyToF wChainFix (fun s _ => s) stPreB tFixC).1.tootState =
      stPreB.tootState) :=
  ⟨t2m_C2_guarded_idempotence.1 cfg0 wSingleFix 1 false false _ tFixA rfl,
    t2m_C2_guarded_idempotence.2.1 cfg0 wSingleFix 1 _ tFixA rfl,
    (t2m_C2_guarded_idempotence.2.2 wChainFix (fun s _ => s) stPreB tFixC
      tFixB tFixB "b1" rfl rfl rfl rfl rfl).1⟩

/-- C3: causal order of reply chains, evaluated on the A→B→C fixtures.
The recursion does deliver ancestors first: on the boost chain (which
renders despite the boosted_by slip) the send log is exactly
[ua, ub, uc], i.e. A then B then C. But on the same chain of ordinary
non-boost toots NO send happens at all: rendering every toot raises
UnboundLocalError("boosted_by") (the else branch of the boost attribution
in `_factor_mail_message` only does pass), the per-toot handler swallows
it, and the run records nothing - so the claim's "the sends occur in the
order A, then B, then C" fails on non-boost chains although the ordering
logic itself is correct. -/
theorem t2m_C3_chain_order_eval :
    ((processToot cfg0 wChainFix 3 emptySt tFixC).sends = ["ua", "ub", "uc"]) ∧
    ((processToot cfg0 wChainFix 3 emptySt tFixC).tootState =
      [("anna@h", ["ua"]), ("bob@h", ["ub"]), ("cara@h", ["uc"])]) ∧
    ((processToot cfg0 wPlainFix 3 emptySt pFixC).sends = ([] : List String)) ∧
    ((processToot cfg0 wPlainFix 3 emptySt pFixC).tootState = ([] : TootState)) ∧
    ((processTootCore cfg0 wPlainFix 2 emptySt pFixC).2 =
      .error (.unboundLocal "boosted_by")) :=
  ⟨rfl, rfl, rfl, rfl, rfl⟩

/-- C4: when the resolved reply parent is already in the delivered set,
no send happens for it (for ANY recursive processor, since the recursion
is skipped), yet the resolved parent object stays attached to the toot
and is what the body's "In Reply To" field and the In-Reply-To mail
header are built from. -/
theorem t2m_C4_duplicate_parent_retained (cfg : Config) (w : World)
    (proc : St → Toot → St) (st : St) (t parent p1 : Toot) (pid : String)
    (hid : t.in_reply_to_id = some pid)
    (hcan : canTootBeProcessed w t = true)
    (hfetch : w.statuses t.getHostname pid = .ok parent)
    (hres : getOriginalTootRes w parent = .ok p1)
    (hdone : isTootAlreadyProcessed st.tootState p1 = true) :
    (getTootInReplyToF w proc st t).2 = .ok (t.setInReplyTo (some p1)) ∧
    (getTootInReplyToF w proc st t).1.sends = st.sends ∧
    (getTootInReplyToF w proc st t).1.tootState = st.tootState ∧
    inReplyToUrlField (t.setInReplyTo (some p1)) = p1.url ∧
    headerValue (factorMailHeaders cfg (t.setInReplyTo (some p1))) "In-Reply-To" =
      some ("<" ++ p1.account.username ++ "." ++ p1.getHostname ++ "." ++ p1.id ++
        "@" ++ cfg.fqdn ++ ">") := by
  have h := getTootInReplyToF_parent_done w proc st t parent p1 pid
    hid hcan hfetch hres hdone
  refine ⟨h.1, h.2.2, h.2.1, ?_, ?_⟩
  · simp [inReplyToUrlField, Toot.isReply, Toot.setInReplyTo_in_reply_to_id,
      Toot.setInReplyTo_in_reply_to, hid]
  · simp [factorMailHeaders, Toot.isReply, Toot.setInReplyTo_in_reply_to_id,
      Toot.setInReplyTo_in_reply_to, hid, headerValue]

/-- Witness for C4: with B (ub, bob@h) already delivered, resolving C's
parent keeps B attached, changes no delivery state, and the In-Reply-To
header and body field point at B. -/
theorem t2m_C4_duplicate_parent_retained_witness :
    ((getTootInReplyToF wChainFix (fun s _ => s) stPreB tFixC).2 =
      .ok (tFixC.setInReplyTo (some tFixB))) ∧
    ((getTootInReplyToF wChainFix (fun s _ => s) stPreB tFixC).1.sends =
      stPreB.sends) ∧
    (inReplyToUrlField (tFixC.setInReplyTo (some tFixB)) = tFixB.url) ∧
    (headerValue (factorMailHeaders cfg0 (tFixC.setInReplyTo (some tFixB)))
      "In-Reply-To" =
      some ("<" ++ tFixB.account.username ++ "." ++ tFixB.getHostname ++ "." ++
        tFixB.id ++ "@" ++ cfg0.fqdn ++ ">")) :=
  ⟨(t2m_C4_duplicate_parent_retained cfg0 wChainFix (fun s _ => s) stPreB
      tFixC tFixB tFixB "b1" rfl rfl rfl rfl rfl).1,
    (t2m_C4_duplicate_parent_retained cfg0 wChainFix (fun s _ => s) stPreB
      tFixC tFixB tFixB "b1" rfl rfl rfl rfl rfl).2.1,
    (t2m_C4_duplicate_parent_retained cfg0 wChainFix (fun s _ => s) stPreB
      tFixC tFixB tFixB "b1" rfl rfl rfl rfl rfl).2.2.2.1,
    (t2m_C4_duplicate_parent_retained cfg0 wChainFix (fun s _ => s) stPreB
      tFixC tFixB tFixB "b1" rfl rfl rfl rfl rfl).2.2.2.2⟩

/-- C5 counterexample: at the boost fixture bFix (outer account "out",
display name "Oda", own content "outer words") embedding iFix (author
"inn", content "inner words"): the rendered text is the OUTER post's
content, not the embedded original's; the "Boosted by" field names the
OUTER account; and the "Posted by" username is the embedded original
author's - refuting the claim that rendering uses the embedded original's
content and attributes "posted by" to the outer and "boosted by" to the
inner account. -/
theorem t2m_C5_boost_attribution_counterexample :
    (bFix.reblog = some iFix) ∧
    (factorTextContent cfg0 bFix = "outer words") ∧
    (iFix.contentProp = "inner words") ∧
    ¬ (("outer words" : String) = "inner words") ∧
    (boostedByLocal bFix = some "Oda (@out)") ∧
    (bFix.account.username = "out") ∧
    (iFix.account.username = "inn") ∧
    (bFix.getUsername false = "inn") ∧
    (bFix.getDisplayName false = "Oda") :=
  ⟨rfl, rfl, rfl, by decide, rfl, rfl, rfl, rfl, rfl⟩

/-- C5 as amended: for a post with an embedded original, rendering
inherits the original's card, attachments (when the original has any) and
url, but keeps the OUTER post's own content; the "Posted by" line pairs
the outer account's display name with the embedded original author's
username, and the "Boosted by" line is the outer account; such a boost
always renders (the boosted_by local is assigned). -/
theorem t2m_C5_boost_unwrapping_amended (cfg : Config) (text : String)
    (t r : Toot) (hreb : t.reblog = some r) :
    t.cardProp = r.cardProp ∧
    t.mediaAttachmentsProp =
      (if r.mediaAttachmentsProp ≠ [] then r.mediaAttachmentsProp
       else t.media_attachments) ∧
    msgUrlField t = r.url ∧
    t.contentProp =
      (if t.spoiler_text ≠ "" then t.spoiler_text ++ "\n\n" ++ t.content
       else t.content) ∧
    t.getUsername false = r.account.username ∧
    t.getDisplayName false = Toot.strOrElse t.account.display_name t.account.username ∧
    boostedByLocal t =
      some (t.account.display_name ++ " (@" ++ t.account.username ++ ")") ∧
    exceptOk (factorMailMessage cfg t text) = true := by
  rcases t with ⟨i, u, ur, co, sp, irid, reb, acc, med, card, app, ca, sn, sv, irt⟩
  simp only [Toot.reblog] at hreb
  subst hreb
  exact ⟨rfl, rfl, rfl, rfl, rfl, rfl, rfl, rfl⟩

/-- Witness for C5's amended statement at the boost fixture. -/
theorem t2m_C5_boost_unwrapping_witness :
    bFix.cardProp = iFix.cardProp ∧
    bFix.mediaAttachmentsProp =
      (if iFix.mediaAttachmentsProp ≠ [] then iFix.mediaAttachmentsProp
       else bFix.media_attachments) ∧
    msgUrlField bFix = iFix.url ∧
    bFix.contentProp =
      (if bFix.spoiler_text ≠ "" then bFix.spoiler_text ++ "\n\n" ++ bFix.content
       else bFix.content) ∧
    bFix.getUsername false = iFix.account.username ∧
    bFix.getDisplayName false =
      Toot.strOrElse bFix.account.display_name bFix.account.username ∧
    boostedByLocal bFix =
      some (bFix.account.display_name ++ " (@" ++ bFix.account.username ++ ")") ∧
    exceptOk (factorMailMessage cfg0 bFix "outer words") = true :=
  t2m_C5_boost_unwrapping_amended cfg0 "outer words" bFix iFix rfl

/-- C6: rendering is NOT total. The subject side behaves as specified
(placeholder "..." for empty text, truncation past the cap), but for
every non-boost toot `_factor_mail_message` references the local
boosted_by that its else-branch (a bare pass) never assigns, raising
UnboundLocalError - evaluated here at the plain fixture: the body step
raises and the whole per-toot pipeline ends in that error instead of a
send. -/
theorem t2m_C6_render_unbound_local :
    (factorMailMessage cfg0 pFixA "hi" = .error (.unboundLocal "boosted_by")) ∧
    (pFixA.isBoost = false) ∧
    (factorMailSubject cfg0 "" = "...") ∧
    (factorMailSubject { cfg0 with mailMaximumSubjectLength := 3 } "abcdef" =
      "abc...") ∧
    ((processTootCore cfg0 wPlainFix 1 emptySt pFixA).2 =
      .error (.unboundLocal "boosted_by")) ∧
    ((processToot cfg0 wPlainFix 2 emptySt pFixA).sends = ([] : List String)) :=
  ⟨rfl, rfl, rfl, rfl, rfl, rfl⟩

/-- Lemma: `_get_image` cannot raise unless the fetch fails at transport level
(the only uncaught exception class). -/
theorem getImage_ok_of_not_conn (cfg : Config) (w : World)
    (image_url file_name hostname : String)
    (h : w.images image_url ≠ .connectionError) :
    exceptOk (getImage cfg w image_url file_name hostname) = true := by
  unfold getImage
  cases hi : w.images image_url with
  | ok data => rfl
  | httpError s => rfl
  | connectionError => exact absurd hi h

/-- The media-attachment loop keeps succeeding as long as no image fetch
fails at transport level. -/
theorem attachmentStep_preserves_ok (cfg : Config) (w : World) (host : String)
    (hw : ∀ u, w.images u ≠ .connectionError) :
    ∀ (l : List MediaAtt) (acc : Except PyErr (List (String × ImageData))),
      exceptOk acc = true →
      exceptOk (l.foldl (attachmentStep cfg w host) acc) = true := by
  intro l
  induction l with
  | nil => intro acc h; exact h
  | cons m rest ih =>
    intro acc h
    rw [List.foldl_cons]
    apply ih
    cases acc with
    | error e => simp [exceptOk] at h
    | ok items =>
      unfold attachmentStep
      dsimp only
      split
      · have hok := getImage_ok_of_not_conn cfg w
          (if m.type = "image" then m.url else m.preview_url)
          (pathName (if m.type = "image" then m.url else m.preview_url)) host
          (hw _)
        cases hgi : getImage cfg w (if m.type = "image" then m.url else m.preview_url)
            (pathName (if m.type = "image" then m.url else m.preview_url)) host with
        | ok a => simp [hgi, exceptOk]
        | error e => rw [hgi] at hok; simp [exceptOk] at hok
      · rfl

/-- C7 counterexample: an attachment fetch failing with a transport-level
error (requests ConnectionError / Timeout carries no HTTP status and is
not caught by `_get_image`, whose only except clause is HTTPError)
produces NO placeholder - it propagates and aborts the post's delivery:
at the media fixture the pipeline ends in the connection error and
nothing is sent, refuting the claim for this class of fetch failures. -/
theorem t2m_C7_connection_error_aborts :
    (getImage cfg0 wImgConnFix "https://img/a.png" "a.png" "h" =
      .error .connection) ∧
    ((processTootCore cfg0 wImgConnFix 1 emptySt tMediaFix).2 =
      .error .connection) ∧
    ((processToot cfg0 wImgConnFix 2 emptySt tMediaFix).sends =
      ([] : List String)) ∧
    (tMediaFix.isBoost = true) :=
  ⟨rfl, rfl, rfl, rfl⟩

/-- C7 as amended: for a fetch failing with an HTTP status error,
`_get_image` substitutes a synthesized, never-empty placeholder image
(named file_name.png) carrying the wrapped error text, and - as long as
no fetch fails at transport level - the whole attachment resolution step
succeeds, so such failures do not abort the post's delivery. -/
theorem t2m_C7_http_error_placeholder :
    (∀ (cfg : Config) (w : World) (image_url file_name hostname : String)
        (s : Nat),
      w.images image_url = .httpError s →
      getImage cfg w image_url file_name hostname =
        .ok (file_name ++ ".png",
          generateDownloadErrorImage cfg (downloadErrorMsg image_url s)) ∧
      (generateDownloadErrorImage cfg (downloadErrorMsg image_url s)).isEmptyData =
        false) ∧
    (∀ (cfg : Config) (w : World) (t : Toot),
      (∀ u, w.images u ≠ .connectionError) →
      exceptOk (factorTootAttachments cfg w t) = true) := by
  constructor
  · intro cfg w image_url file_name hostname s h
    constructor
    · unfold getImage
      rw [h]
    · unfold generateDownloadErrorImage
      cases cfg.imageMaximumSize <;> rfl
  · intro cfg w t hw
    unfold factorTootAttachments
    dsimp only
    apply attachmentStep_preserves_ok cfg w t.getHostname hw
    cases hc : t.cardProp with
    | none => rfl
    | some card =>
      dsimp only
      split
      · have hok := getImage_ok_of_not_conn cfg w card.image
          ("card_" ++ pathName card.image) t.getHostname (hw _)
        cases hgi : getImage cfg w card.image ("card_" ++ pathName card.image)
            t.getHostname with
        | ok a => simp [hgi, exceptOk]
        | error e => rw [hgi] at hok; simp [exceptOk] at hok
      · rfl

/-- Witness for C7's amended statement: a 404 on the image fetch yields
the placeholder, the attachment step succeeds, and the post is still
delivered. -/
theorem t2m_C7_http_error_placeholder_witness :
    (getImage cfg0 wImgHttpFix "https://img/a.png" "a.png" "h" =
      .ok ("a.png" ++ ".png",
        generateDownloadErrorImage cfg0 (downloadErrorMsg "https://img/a.png" 404))) ∧
    ((generateDownloadErrorImage cfg0
        (downloadErrorMsg "https://img/a.png" 404)).isEmptyData = false) ∧
    (exceptOk (factorTootAttachments cfg0 wImgHttpFix tMediaFix) = true) ∧
    ((processToot cfg0 wImgHttpFix 2 emptySt tMediaFix).sends = ["um"]) :=
  ⟨(t2m_C7_http_error_placeholder.1 cfg0 wImgHttpFix "https://img/a.png"
      "a.png" "h" 404 rfl).1,
    (t2m_C7_http_error_placeholder.1 cfg0 wImgHttpFix "https://img/a.png"
      "a.png" "h" 404 rfl).2,
    t2m_C7_http_error_placeholder.2 cfg0 wImgHttpFix tMediaFix
      (fun _ h => nomatch h),
    rfl⟩

/-- C8: deny-list short-circuit, evaluated on fixtures. With the origin
host classified as pixelfed, the run's fetch log contains ONLY the origin
status re-fetch - the reply-parent endpoint is never requested - and the
classification is fail-closed. With an unknown classification (none,
none) the engine proceeds (fail open): the parent fetch is attempted. But
the denied non-boost post itself is NOT delivered: its rendering raises
UnboundLocalError (the boosted_by slip) and nothing is sent, whereas the
identically-situated boost is delivered - so the claim's "the post itself
is still delivered" holds only for posts that survive rendering. -/
theorem t2m_C8_deny_list_short_circuit_eval :
    ((processToot cfg0 wDenyFix 2 emptySt tDenyFix).fetches =
      [("ph", "api/v1/statuses/d1")]) ∧
    ((processToot cfg0 wDenyFix 2 emptySt tDenyFix).sends = ([] : List String)) ∧
    (canTootBeProcessed wDenyFix tDenyFix = false) ∧
    ((processToot cfg0 wDenyBoostFix 2 emptySt tDenyBoostFix).fetches =
      [("ph", "api/v1/statuses/d1")]) ∧
    ((processToot cfg0 wDenyBoostFix 2 emptySt tDenyBoostFix).sends = ["udb"]) ∧
    (canTootBeProcessed wOpenFix tOpenFix = true) ∧
    (wOpenFix.classify "mh" = (none, none)) ∧
    ((processToot cfg0 wOpenFix 2 emptySt tOpenFix).fetches =
      [("mh", "api/v1/statuses/o1"), ("mh", "api/v1/statuses/o0")]) ∧
    ((processToot cfg0 wOpenFix 2 emptySt tOpenFix).sends = ["uo"]) :=
  ⟨rfl, rfl, rfl, rfl, rfl, rfl, rfl, rfl, rfl⟩

/-- C9: origin re-resolution degrades to best effort. A successful
re-fetch replaces the toot; a MaxRetryError or ProxyError (the
transport-level classes `_get_original_toot` catches) keeps the original;
HTTP 403 and 404 keep the original; any other HTTP status propagates -
and a propagated status error makes that post's pipeline fail right
there, leaving the delivery state and send log untouched. -/
theorem t2m_C9_origin_refetch_fallback (cfg : Config) (w : World) (fuel : Nat)
    (st : St) (t nt : Toot) (s : Nat) :
    (w.statuses (urlNetloc t.url) (urlLastPathSegment t.url) = .ok nt →
      getOriginalTootRes w t = .ok nt) ∧
    (w.statuses (urlNetloc t.url) (urlLastPathSegment t.url) = .maxRetryError →
      getOriginalTootRes w t = .ok t) ∧
    (w.statuses (urlNetloc t.url) (urlLastPathSegment t.url) = .proxyError →
      getOriginalTootRes w t = .ok t) ∧
    (w.statuses (urlNetloc t.url) (urlLastPathSegment t.url) = .httpError 403 →
      getOriginalTootRes w t = .ok t) ∧
    (w.statuses (urlNetloc t.url) (urlLastPathSegment t.url) = .httpError 404 →
      getOriginalTootRes w t = .ok t) ∧
    (w.statuses (urlNetloc t.url) (urlLastPathSegment t.url) = .httpError s →
      s ≠ 403 → s ≠ 404 → getOriginalTootRes w t = .error (.httpError s)) ∧
    (∀ e, getOriginalTootRes w t = .error e →
      (processToot cfg w (fuel + 1) st t).tootState = st.tootState ∧
      (processToot cfg w (fuel + 1) st t).sends = st.sends ∧
      (processTootCore cfg w fuel st t).2 = .error e) := by
  refine ⟨?_, ?_, ?_, ?_, ?_, ?_, ?_⟩
  · intro h; unfold getOriginalTootRes; dsimp only; rw [h]
  · intro h; unfold getOriginalTootRes; dsimp only; rw [h]
  · intro h; unfold getOriginalTootRes; dsimp only; rw [h]
  · intro h; unfold getOriginalTootRes; dsimp only; rw [h]; rfl
  · intro h; unfold getOriginalTootRes; dsimp only; rw [h]; simp
  · intro h h3 h4; unfold getOriginalTootRes; dsimp only; rw [h]
    simp [h3, h4]
  · intro e he
    have hcore : processTootCore cfg w fuel st t =
        ((logFetch st (urlNetloc t.url)
          ("api/v1/statuses/" ++ urlLastPathSegment t.url)), .error e) := by
      unfold processTootCore processTootCoreF getOriginalToot
      dsimp only
      rw [he]
    refine ⟨?_, ?_, by rw [hcore]⟩
    · show (processTootCore cfg w fuel st t).1.tootState = st.tootState
      rw [hcore]
      rfl
    · show (processTootCore cfg w fuel st t).1.sends = st.sends
      rw [hcore]
      rfl

/-- Witness for C9 at the fixtures: each fallback class observed at a
concrete world, plus the propagation of a 500. -/
theorem t2m_C9_origin_refetch_fallback_witness :
    (getOriginalTootRes wSingleFix tFixA = .ok tFixA) ∧
    (getOriginalTootRes wProxyFix tFixA = .ok tFixA) ∧
    (getOriginalTootRes wMaxRetryFix tFixA = .ok tFixA) ∧
    (getOriginalTootRes w403Fix tFixA = .ok tFixA) ∧
    (getOriginalTootRes w500Fix tFixA = .error (.httpError 500)) ∧
    ((processToot cfg0 w500Fix 1 emptySt tFixA).tootState = emptySt.tootState) ∧
    ((processTootCore cfg0 w500Fix 0 emptySt tFixA).2 =
      .error (.httpError 500)) :=
  ⟨(t2m_C9_origin_refetch_fallback cfg0 wSingleFix 0 emptySt tFixA tFixA 0).1 rfl,
    (t2m_C9_origin_refetch_fallback cfg0 wProxyFix 0 emptySt tFixA tFixA 0).2.2.1 rfl,
    (t2m_C9_origin_refetch_fallback cfg0 wMaxRetryFix 0 emptySt tFixA tFixA 0).2.1 rfl,
    (t2m_C9_origin_refetch_fallback cfg0 w403Fix 0 emptySt tFixA tFixA 0).2.2.2.1 rfl,
    (t2m_C9_origin_refetch_fallback cfg0 w500Fix 0 emptySt tFixA tFixA 500).2.2.2.2.2.1
      rfl (by decide) (by decide),
    ((t2m_C9_origin_refetch_fallback cfg0 w500Fix 0 emptySt tFixA tFixA 500).2.2.2.2.2.2
      (.httpError 500) rfl).1,
    ((t2m_C9_origin_refetch_fallback cfg0 w500Fix 0 emptySt tFixA tFixA 500).2.2.2.2.2.2
      (.httpError 500) rfl).2.2⟩

/-- C10: per-toot error containment. `_process_toot` catches every
exception of its own pipeline (it returns a state, never an error), so
the only failure that can surface at the per-account / per-hashtag
boundary is the timeline fetch itself: whenever that fetch succeeds, the
account body completes normally - with the per-toot loop run over EVERY
fetched toot, whatever each one's pipeline did - and the end-of-run
persistence always writes exactly the in-memory state reached. -/
theorem t2m_C10_per_toot_containment :
    (∀ (cfg : Config) (w : World) (fuel : Nat) (st : St)
        (username hostname : String) (er eb : Bool) (toots : List Toot),
      (getToots w st username hostname).2 = .ok toots →
      (processUserCore cfg w fuel st username hostname er eb).2 = .ok () ∧
      (processUserCore cfg w fuel st username hostname er eb).1 =
        toots.foldl (processUserStep cfg w fuel er eb)
          (getToots w st username hostname).1) ∧
    (∀ (cfg : Config) (w : World) (fuel : Nat) (st : St)
        (hashtag hostname : String) (toots : List Toot),
      (getTootsForHashtag w st hashtag hostname).2 = .ok toots →
      (processHashtagCore cfg w fuel st hashtag hostname).2 = .ok ()) ∧
    (∀ (cfg : Config) (w : World) (fuel : Nat) (users : List UserSpec) (st : St),
      (processUsersRun cfg w fuel users st).2 =
        (processUsersRun cfg w fuel users st).1.tootState) := by
  refine ⟨?_, ?_, ?_⟩
  · intro cfg w fuel st username hostname er eb toots hok
    rcases hp : getToots w st username hostname with ⟨st1, r⟩
    rw [hp] at hok
    simp only at hok
    subst hok
    unfold processUserCore
    rw [hp]
    exact ⟨rfl, rfl⟩
  · intro cfg w fuel st hashtag hostname toots hok
    rcases hp : getTootsForHashtag w st hashtag hostname with ⟨st1, r⟩
    rw [hp] at hok
    simp only at hok
    subst hok
    unfold processHashtagCore
    rw [hp]
  · intro cfg w fuel users st
    rfl

/-- Witness for C10: in a batch where f1's origin re-fetch raises HTTP
500 (its per-toot pipeline fails) and g1 delivers, the account body still
completes normally, g1's uri is recorded, and the run persists exactly
the state reached. -/
theorem t2m_C10_per_toot_containment_witness :
    ((processTootCore cfg0 wMixFix 1 emptySt tFailFix).2 =
      .error (.httpError 500)) ∧
    ((processUserCore cfg0 wMixFix 2 emptySt "u" "h" false false).2 = .ok ()) ∧
    (tootsOf (processUser cfg0 wMixFix 2 emptySt "u" "h" false false).tootState
      "good@h" = ["ug"]) ∧
    ((processUser cfg0 wMixFix 2 emptySt "u" "h" false false).sends = ["ug"]) ∧
    ((processUsersRun cfg0 wMixFix 2
        [{ username := "u", hostname := "h",
           exclude_replies := false, exclude_boosts := false }] emptySt).2 =
      (processUsersRun cfg0 wMixFix 2
        [{ username := "u", hostname := "h",
           exclude_replies := false, exclude_boosts := false }] emptySt).1.tootState) :=
  ⟨rfl,
    (t2m_C10_per_toot_containment.1 cfg0 wMixFix 2 emptySt "u" "h" false false
      [tFailFix, tGoodFix] rfl).1,
    rfl, rfl,
    t2m_C10_per_toot_containment.2.2 cfg0 wMixFix 2
      [{ username := "u", hostname := "h",
         exclude_replies := false, exclude_boosts := false }] emptySt⟩
